import Mathlib

/-!
Verification of `katana_public_api_client/generated/models/stocktake_status.py`.

The source defines a Python string-backed enumeration:

```python
class StocktakeStatus(str, Enum):
    COMPLETED = "COMPLETED"
    DRAFT = "DRAFT"
    IN_PROGRESS = "IN_PROGRESS"

    def __str__(self) -> str:
        return str(self.value)
```

We embed the enum as an inductive type with three constructors, its member
assignments as `value`, iteration order as `members`, the enum-call lookup
`StocktakeStatus(s)` as `construct` (returning `none` where Python raises
`ValueError`), the `__str__` method as `toStr`, and the `str`-inherited
equality between members (and between a member and a plain string) as
content comparison of the underlying string values.
-/

/-- The `StocktakeStatus` enumeration: one constructor per member, in the
source's definition order. -/
inductive StocktakeStatus where
  | COMPLETED
  | DRAFT
  | IN_PROGRESS
deriving DecidableEq, Repr

/-- The underlying string value assigned to each member in the source
(`COMPLETED = "COMPLETED"`, `DRAFT = "DRAFT"`, `IN_PROGRESS = "IN_PROGRESS"`). -/
def StocktakeStatus.value : StocktakeStatus → String
  | .COMPLETED => "COMPLETED"
  | .DRAFT => "DRAFT"
  | .IN_PROGRESS => "IN_PROGRESS"

/-- The symbolic name of each member, as Python's `member.name`. -/
def StocktakeStatus.name : StocktakeStatus → String
  | .COMPLETED => "COMPLETED"
  | .DRAFT => "DRAFT"
  | .IN_PROGRESS => "IN_PROGRESS"

/-- Iteration over the enum class (`list(StocktakeStatus)`): the members in
definition order. -/
def StocktakeStatus.members : List StocktakeStatus :=
  [.COMPLETED, .DRAFT, .IN_PROGRESS]

/-- The enum call `StocktakeStatus(s)`: look the string up among the member
values in definition order; `none` models the `ValueError` Python raises for
an unrecognized token. -/
def StocktakeStatus.construct (s : String) : Option StocktakeStatus :=
  StocktakeStatus.members.find? (fun v => v.value == s)

/-- The `__str__` method: `return str(self.value)`; on a string value,
`str` is the identity. -/
def StocktakeStatus.toStr (v : StocktakeStatus) : String :=
  v.value

/-- Equality between two members. `StocktakeStatus` subclasses `str` and
`Enum` does not override `__eq__`, so member comparison is `str` content
comparison of the underlying values. -/
def StocktakeStatus.beqMember (v w : StocktakeStatus) : Bool :=
  v.value == w.value

/-- Equality between a member and a plain string, again via the inherited
`str.__eq__`: content comparison of the member's underlying value with the
string. -/
def StocktakeStatus.eqString (v : StocktakeStatus) (s : String) : Bool :=
  v.value == s

/-- C1: for every string `s` outside `{"COMPLETED", "DRAFT", "IN_PROGRESS"}`
(including lowercase `"completed"` and `""`), constructing a `StocktakeStatus`
from `s` fails (`none`, modelling the `ValueError`): no partial or default
value is produced. -/
theorem construct_fails_on_unrecognized_token (s : String)
    (h : s ∉ ["COMPLETED", "DRAFT", "IN_PROGRESS"]) :
    StocktakeStatus.construct s = none := by
  simp only [List.mem_cons, List.not_mem_nil, or_false, not_or] at h
  obtain ⟨h1, h2, h3⟩ := h
  have e1 : ("COMPLETED" == s) = false := beq_eq_false_iff_ne.mpr (Ne.symm h1)
  have e2 : ("DRAFT" == s) = false := beq_eq_false_iff_ne.mpr (Ne.symm h2)
  have e3 : ("IN_PROGRESS" == s) = false := beq_eq_false_iff_ne.mpr (Ne.symm h3)
  simp [StocktakeStatus.construct, StocktakeStatus.members, List.find?,
    StocktakeStatus.value, e1, e2, e3]

/-- Witness for C1: the lowercase token `"completed"` and the empty string
are outside the valid set and construction from each fails with `none`. -/
theorem construct_fails_on_unrecognized_token_witness :
    StocktakeStatus.construct "completed" = none ∧
      StocktakeStatus.construct "" = none :=
  ⟨construct_fails_on_unrecognized_token "completed" (by decide),
    construct_fails_on_unrecognized_token "" (by decide)⟩

/-- C2: for every variant `v`, construction from the string conversion of `v`
yields `v` again: `construct (toStr v) = some v` (round-trip law). -/
theorem construct_toStr_roundtrip (v : StocktakeStatus) :
    StocktakeStatus.construct v.toStr = some v := by
  cases v <;> decide

/-- C3: for every variant `v`, the string conversion of `v` equals its
symbolic name, and the underlying value of `v` is the string equal to its
own name. -/
theorem toStr_eq_name_and_value_eq_name (v : StocktakeStatus) :
    v.toStr = v.name ∧ v.value = v.name := by
  cases v <;> exact ⟨rfl, rfl⟩

/-- C4: the type has exactly cardinality 3: every value is one of the three
listed members, and the three members are pairwise distinct. -/
theorem stocktakeStatus_card_three :
    (∀ v : StocktakeStatus, v ∈ StocktakeStatus.members) ∧
      StocktakeStatus.members.Nodup ∧ StocktakeStatus.members.length = 3 :=
  ⟨fun v => by cases v <;> decide, by decide, rfl⟩

/-- C5: two variants compare equal iff they denote the same tag; this
equality is reflexive, symmetric and transitive, and distinct variants
(such as `COMPLETED` and `DRAFT`) are never equal. -/
theorem beqMember_iff_eq :
    (∀ v w : StocktakeStatus, v.beqMember w = true ↔ v = w) ∧
      (∀ v : StocktakeStatus, v.beqMember v = true) ∧
      (∀ v w : StocktakeStatus, v.beqMember w = w.beqMember v) ∧
      (∀ u v w : StocktakeStatus,
        u.beqMember v = true → v.beqMember w = true → u.beqMember w = true) ∧
      StocktakeStatus.COMPLETED.beqMember .DRAFT = false :=
  ⟨fun v w => by cases v <;> cases w <;> decide,
    fun v => by cases v <;> decide,
    fun v w => by cases v <;> cases w <;> decide,
    fun u v w => by cases u <;> cases v <;> cases w <;> decide,
    by decide⟩

/-- Witness for C5: the transitivity clause applied at concrete members. -/
theorem beqMember_iff_eq_witness :
    StocktakeStatus.DRAFT.beqMember .DRAFT = true :=
  beqMember_iff_eq.2.2.2.1 .DRAFT .DRAFT .DRAFT (by decide) (by decide)

/-- C6: string conversion is total: for every variant `v`, `toStr v` is a
well-defined string, namely `v`'s canonical token, one of the three valid
tokens. -/
theorem toStr_total (v : StocktakeStatus) :
    v.toStr = v.value ∧ v.toStr ∈ ["COMPLETED", "DRAFT", "IN_PROGRESS"] :=
  ⟨rfl, by cases v <;> decide⟩

/-- C7: all operations are pure functions of their arguments: equal inputs
give equal outputs for string conversion, construction and equality, and no
state is involved in the embedding. -/
theorem operations_deterministic (v w : StocktakeStatus) (s t : String) :
    (v = w → v.toStr = w.toStr) ∧
      (s = t → StocktakeStatus.construct s = StocktakeStatus.construct t) ∧
      (v = w → ∀ u : StocktakeStatus, v.beqMember u = w.beqMember u) :=
  ⟨fun h => h ▸ rfl, fun h => h ▸ rfl, fun h _ => h ▸ rfl⟩

/-- Witness for C7: determinism discharged at concrete inputs. -/
theorem operations_deterministic_witness :
    StocktakeStatus.DRAFT.toStr = StocktakeStatus.DRAFT.toStr ∧
      StocktakeStatus.construct "DRAFT" = StocktakeStatus.construct "DRAFT" :=
  ⟨(operations_deterministic .DRAFT .DRAFT "DRAFT" "DRAFT").1 rfl,
    (operations_deterministic .DRAFT .DRAFT "DRAFT" "DRAFT").2.1 rfl⟩

/-- C8: every variant compares equal to its plain canonical token through
the inherited `str` equality: in particular `DRAFT == "DRAFT"` holds, and in
general `v == name v` for every variant `v`. -/
theorem member_eqString_own_token :
    StocktakeStatus.DRAFT.eqString "DRAFT" = true ∧
      ∀ v : StocktakeStatus, v.eqString v.name = true :=
  ⟨by decide, fun v => by cases v <;> decide⟩

/-- C9: construction is idempotent on existing variants: applying the
constructor to the string content of a variant `v` (which is `v`'s own
token, since `v` is a `str` equal to it) succeeds and returns `v`. -/
theorem construct_idempotent_on_members (v : StocktakeStatus) :
    StocktakeStatus.construct v.value = some v := by
  cases v <;> decide

/-- C10: iterating over the type yields exactly the three members in
definition order (`COMPLETED`, `DRAFT`, `IN_PROGRESS`), and no member is an
alias of another: the three underlying string values are pairwise
distinct. -/
theorem members_order_and_no_alias :
    StocktakeStatus.members = [.COMPLETED, .DRAFT, .IN_PROGRESS] ∧
      (StocktakeStatus.members.map StocktakeStatus.value).Nodup :=
  ⟨rfl, by decide⟩
